import Mathlib

/-!
Verification development for the storage pool/volume core of the lxd
repository (files `lxd/storage/drivers/volume.go` and the storage pool
resolver file).  Go functions are shallowly embedded as Lean functions;
Go errors are modelled as `String` values (`Option String` for a bare
`error` return, `Except String α` for an `(α, error)` pair); calls into
external collaborators (storage drivers, the catalog/database, the OS)
are modelled by behaviour records supplied as parameters, and the calls
actually performed are recorded in an event trace returned next to the
result.
-/

/-- Character-list version of Go `strings.SplitN(s, sep, 2)` for a one-character
separator: find the first occurrence of `sep`, returning the parts before and
after it, or `none` when `sep` does not occur. -/
def splitFirst (sep : Char) : List Char → Option (List Char × List Char)
  | [] => none
  | c :: rest =>
    if c = sep then some ([], rest)
    else
      match splitFirst sep rest with
      | none => none
      | some (a, b) => some (c :: a, b)

/-- Go `strings.SplitN(s, "_", 2)`: a one-element list when there is no
underscore, otherwise the part before the first underscore and the rest. -/
def splitN2Underscore (s : String) : List String :=
  match splitFirst '_' s.data with
  | none => [s]
  | some (a, b) => [String.mk a, String.mk b]

/-- Modelled from the spec: `shared.IsSnapshot` (not under src/) — a volume
name denotes a snapshot exactly when it has the form
`<parent>/<snapshot-suffix>`, i.e. when it contains the snapshot
delimiter `/`. -/
def sharedIsSnapshot (name : String) : Bool :=
  (splitFirst '/' name.data).isSome

/-- Modelled from the spec: `shared.ContainerGetParentAndSnapshotName` (not
under src/) — split a volume name on the first snapshot delimiter `/` into
`(parent, snapshotSuffix, isSnap)`; a name without the delimiter is its own
parent with an empty suffix and `isSnap = false`. -/
def containerGetParentAndSnapshotName (name : String) : String × String × Bool :=
  match splitFirst '/' name.data with
  | none => (name, "", false)
  | some (a, b) => (String.mk a, String.mk b, true)

/-- Modelled from the spec: `GetSnapshotVolumeName` (not under src/) — the
fixed snapshot-name convention joins the parent name and the snapshot suffix
with the delimiter `/`. -/
def GetSnapshotVolumeName (parentName snapshotName : String) : String :=
  parentName ++ "/" ++ snapshotName

/-- Source `VolumeType` represents a storage volume type (a string type in the
source). -/
abbrev VolumeType := String

/-- Source `VolumeTypeImage` represents an image storage volume. -/
def VolumeTypeImage : VolumeType := "images"

/-- Source `VolumeTypeCustom` represents a custom storage volume. -/
def VolumeTypeCustom : VolumeType := "custom"

/-- Source `VolumeTypeContainer` represents a container storage volume. -/
def VolumeTypeContainer : VolumeType := "containers"

/-- Source `VolumeTypeVM` represents a virtual-machine storage volume. -/
def VolumeTypeVM : VolumeType := "virtual-machines"

/-- Source `ContentType` indicates the format of the volume (a string type in the
source). -/
abbrev ContentType := String

/-- Source `ContentTypeFS` indicates a volume populated with a mountable
filesystem. -/
def ContentTypeFS : ContentType := "fs"

/-- Source `ContentTypeBlock` indicates a block-device volume. -/
def ContentTypeBlock : ContentType := "block"

/-- Modelled from the spec: `GetVolumeMountPath` (not under src/) — the mount
path is a deterministic, I/O-free function of pool name, volume type and
volume name (snapshots live under a `-snapshots` directory). -/
def GetVolumeMountPath (poolName : String) (volType : VolumeType) (volName : String) : String :=
  if sharedIsSnapshot volName then
    "storage-pools/" ++ poolName ++ "/" ++ volType ++ "-snapshots/" ++ volName
  else
    "storage-pools/" ++ poolName ++ "/" ++ volType ++ "/" ++ volName

/-- Events recording the driver calls, lock-registry calls and task
invocation performed by a `Volume` operation, in order. -/
inductive Ev where
  | lockAcquire (id : String)
  | lockRelease (id : String)
  | mountVolumeCall (volType : VolumeType) (name : String)
  | unmountVolumeCall (volType : VolumeType) (name : String)
  | mountVolumeSnapshotCall (volType : VolumeType) (parentName snapName : String)
  | unmountVolumeSnapshotCall (volType : VolumeType) (parentName snapName : String)
  | volumeSnapshotsCall (volType : VolumeType) (name : String)
  | taskCall (mountPath : String)
deriving DecidableEq, Repr

/-- Behaviour of a storage driver (the Driver capability interface): the
result each driver call would return.  A `(bool, error)` Go return is an
`Except String Bool`; the progress-token argument is opaque to this layer and
elided. -/
structure Driver where
  mountVolume : VolumeType → String → Except String Bool
  unmountVolume : VolumeType → String → Except String Bool
  mountVolumeSnapshot : VolumeType → String → String → Except String Bool
  unmountVolumeSnapshot : VolumeType → String → String → Except String Bool
  volumeSnapshots : VolumeType → String → Except String (List String)

/-- Source `Volume` represents a storage volume (config is an association list in
place of the Go string map). -/
structure Volume where
  name : String
  pool : String
  volType : VolumeType
  contentType : ContentType
  config : List (String × String)
  driver : Driver

/-- Source `NewVolume` instantiates a new `Volume`. -/
def NewVolume (driver : Driver) (poolName : String) (volType : VolumeType)
    (contentType : ContentType) (volName : String)
    (volConfig : List (String × String)) : Volume :=
  { name := volName
    pool := poolName
    volType := volType
    contentType := contentType
    config := volConfig
    driver := driver }

/-- Source `IsSnapshot` indicates if the volume is a snapshot. -/
def Volume.IsSnapshot (v : Volume) : Bool :=
  sharedIsSnapshot v.name

/-- Source `NewSnapshot` instantiates a `Volume` representing a snapshot of the
parent volume, or fails when the volume is already a snapshot. -/
def Volume.NewSnapshot (v : Volume) (snapshotName : String) : Except String Volume :=
  if v.IsSnapshot then
    .error "Cannot create a snapshot volume from a snapshot"
  else
    .ok (NewVolume v.driver v.pool v.volType v.contentType
      (GetSnapshotVolumeName v.name snapshotName) v.config)

/-- Source `MountPath` returns the path where the volume will be mounted. -/
def Volume.MountPath (v : Volume) : String :=
  GetVolumeMountPath v.pool v.volType v.name

/-- The mount-decision lock identifier computed by `MountTask`:
`mount/<volType>/<name>`. -/
def mountLockID (v : Volume) : String :=
  "mount/" ++ v.volType ++ "/" ++ v.name

/-- The unmount-decision lock identifier computed by `MountTask`:
`umount/<volType>/<name>`. -/
def umountLockID (v : Volume) : String :=
  "umount/" ++ v.volType ++ "/" ++ v.name

/-- Source `MountTask` runs the supplied task after mounting the volume if needed; if
the volume was mounted for this then it is unmounted when the task finishes
(by a deferred action whose own result is discarded).  Returns the Go return
value (the error, `none` for nil) together with the trace of lock, driver and
task calls performed, in order. -/
def Volume.MountTask (v : Volume) (task : String → Option String) :
    Option String × List Ev :=
  match containerGetParentAndSnapshotName v.name with
  | (parentName, snapName, true) =>
    match v.driver.mountVolumeSnapshot v.volType parentName snapName with
    | .error e =>
      (some e,
        [Ev.lockAcquire (mountLockID v),
         Ev.mountVolumeSnapshotCall v.volType parentName snapName,
         Ev.lockRelease (mountLockID v)])
    | .ok ourMount =>
      (task v.MountPath,
        [Ev.lockAcquire (mountLockID v),
         Ev.mountVolumeSnapshotCall v.volType parentName snapName,
         Ev.lockRelease (mountLockID v),
         Ev.taskCall v.MountPath] ++
        (if ourMount then
          [Ev.lockAcquire (umountLockID v),
           Ev.unmountVolumeSnapshotCall v.volType parentName snapName,
           Ev.lockRelease (umountLockID v)]
        else []))
  | (_, _, false) =>
    match v.driver.mountVolume v.volType v.name with
    | .error e =>
      (some e,
        [Ev.lockAcquire (mountLockID v),
         Ev.mountVolumeCall v.volType v.name,
         Ev.lockRelease (mountLockID v)])
    | .ok ourMount =>
      (task v.MountPath,
        [Ev.lockAcquire (mountLockID v),
         Ev.mountVolumeCall v.volType v.name,
         Ev.lockRelease (mountLockID v),
         Ev.taskCall v.MountPath] ++
        (if ourMount then
          [Ev.lockAcquire (umountLockID v),
           Ev.unmountVolumeCall v.volType v.name,
           Ev.lockRelease (umountLockID v)]
        else []))

/-- The result of the driver mount call that `MountTask` performs for this
volume: the snapshot variant on the parent/suffix split when the name encodes
a snapshot, the plain variant otherwise. -/
def mountCallResult (v : Volume) : Except String Bool :=
  match containerGetParentAndSnapshotName v.name with
  | (parentName, snapName, true) => v.driver.mountVolumeSnapshot v.volType parentName snapName
  | (_, _, false) => v.driver.mountVolume v.volType v.name

/-- Whether an event is a driver unmount call (plain or snapshot variant). -/
def Ev.isUnmount : Ev → Bool
  | .unmountVolumeCall _ _ => true
  | .unmountVolumeSnapshotCall _ _ _ => true
  | _ => false

/-- The loop body of `Snapshots`: map each driver-returned snapshot suffix
through `NewSnapshot`, stopping at the first error, preserving order. -/
def snapshotsLoop (v : Volume) : List String → Except String (List Volume)
  | [] => .ok []
  | snapName :: rest =>
    match v.NewSnapshot snapName with
    | .error e => .error e
    | .ok snapshot =>
      match snapshotsLoop v rest with
      | .error e => .error e
      | .ok snapVols => .ok (snapshot :: snapVols)

/-- Source `Snapshots` returns the list of snapshots of the volume, failing without
any driver call when the volume is itself a snapshot. -/
def Volume.Snapshots (v : Volume) : Except String (List Volume) × List Ev :=
  if v.IsSnapshot then
    (.error "Volume is a snapshot", [])
  else
    match v.driver.volumeSnapshots v.volType v.name with
    | .error e => (.error e, [Ev.volumeSnapshotsCall v.volType v.name])
    | .ok snapshots =>
      (snapshotsLoop v snapshots, [Ev.volumeSnapshotsCall v.volType v.name])

/-- Filesystem events performed by `CreateMountPath`, in order. -/
inductive FsEv where
  | mkdirAll (path : String) (mode : Nat)
  | chmod (path : String) (mode : Nat)
deriving DecidableEq, Repr

/-- Behaviour of the OS filesystem calls used by `CreateMountPath`: the error
(or `none`) each call would return. -/
structure OsBehavior where
  mkdirAll : String → Nat → Option String
  chmod : String → Nat → Option String

/-- Source `CreateMountPath` creates the volume's mount path (all created directories
mode `0711`) and, for volume types other than custom and image, sets the leaf
directory to the very restrictive mode `0100`.  Returns the Go error (or
`none`) together with the trace of filesystem calls performed. -/
def Volume.CreateMountPath (v : Volume) (os : OsBehavior) :
    Option String × List FsEv :=
  match os.mkdirAll v.MountPath 0o711 with
  | some e => (some e, [FsEv.mkdirAll v.MountPath 0o711])
  | none =>
    if v.volType ≠ VolumeTypeCustom ∧ v.volType ≠ VolumeTypeImage then
      match os.chmod v.MountPath 0o100 with
      | some e =>
        (some e, [FsEv.mkdirAll v.MountPath 0o711, FsEv.chmod v.MountPath 0o100])
      | none =>
        (none, [FsEv.mkdirAll v.MountPath 0o711, FsEv.chmod v.MountPath 0o100])
    else
      (none, [FsEv.mkdirAll v.MountPath 0o711])

/-- Relevant fields of the catalog pool descriptor `api.StoragePool`; a Go
`nil` config map is `none`, a present map is an association list. -/
structure StoragePool where
  name : String
  driver : String
  config : Option (List (String × String))
deriving DecidableEq, Repr

/-- Catalog-side error: Go compares against `db.ErrNoSuchObject`, any other
error is carried as a message. -/
inductive DbErr where
  | noSuchObject
  | other (msg : String)
deriving DecidableEq, Repr

/-- The arguments with which the ID-resolution callback calls the catalog
lookup `StoragePoolNodeVolumeGetTypeByProject`. -/
structure LookupArgs where
  project : String
  volName : String
  volTypeID : Int
  poolID : Int
deriving DecidableEq, Repr

/-- Behaviour of the catalog volume lookup used by the ID-resolution
callback. -/
structure VolCatalog where
  storagePoolNodeVolumeGetTypeByProject : String → String → Int → Int → Except DbErr Int

/-- Modelled from the spec: `VolumeTypeToDBType` (not under src/) — maps a
volume type to its catalog type code, failing on an unrecognized type (the
concrete codes are immaterial to this layer). -/
def VolumeTypeToDBType (volType : VolumeType) : Except String Int :=
  if volType = VolumeTypeContainer then .ok 0
  else if volType = VolumeTypeVM then .ok 1
  else if volType = VolumeTypeImage then .ok 2
  else if volType = VolumeTypeCustom then .ok 3
  else .error "Invalid storage volume type"

/-- The project/name decoding performed inside the ID-resolution callback:
for container and virtual-machine volume types the volume name may encode the
project as `<project>_<volume>`, split at the first underscore; without an
underscore the project defaults to `default`; other types never split. -/
def volIDProjectName (volType : VolumeType) (volName : String) : String × String :=
  if volType = VolumeTypeContainer ∨ volType = VolumeTypeVM then
    match splitN2Underscore volName with
    | p :: n :: _ => (p, n)
    | _ => ("default", volName)
  else
    ("default", volName)

/-- Source `volIDFuncMake` returns the ID-resolution callback tied to one pool ID:
given a volume type and a (possibly project-prefixed) volume name it resolves
the catalog volume ID.  Next to the Go result it returns the arguments of the
catalog lookup it performed (`none` when the type-code translation failed
before any lookup). -/
def volIDFuncMake (cluster : VolCatalog) (poolID : Int) :
    VolumeType → String → Except String Int × Option LookupArgs :=
  fun volType volName =>
    match VolumeTypeToDBType volType with
    | .error e => (.error e, none)
    | .ok volTypeID =>
      let pn : String × String := volIDProjectName volType volName
      let args : LookupArgs :=
        { project := pn.1, volName := pn.2, volTypeID := volTypeID, poolID := poolID }
      match cluster.storagePoolNodeVolumeGetTypeByProject pn.1 pn.2 volTypeID poolID with
      | .error DbErr.noSuchObject =>
        (.error ("Failed to get volume ID for project " ++ pn.1 ++ ", volume " ++
          pn.2 ++ ", type " ++ volType ++ ": Volume does not exist"), some args)
      | .error (DbErr.other m) => (.error m, some args)
      | .ok volID => (.ok volID, some args)

/-- Modelled from the spec: `ErrNilValue` (not under src/) — the error
returned for a null required value. -/
def ErrNilValue : String := "A nil value was provided"

/-- The Pool value a resolution operation returns: the in-memory mock backend
or the real backend bound to a catalog pool ID and name (driver handle,
daemon state and logger elided as opaque). -/
inductive Pool where
  | mockBackend (name : String)
  | lxdBackend (id : Int) (name : String)
deriving DecidableEq, Repr

/-- Events recording the catalog, driver-load and on-disk-creation calls a
resolution operation performs, in order. -/
inductive PoolEv where
  | driverLoad (driverTag poolName : String)
  | catalogPoolGet (name : String)
  | catalogContainerPool (project instanceName : String)
  | poolCreateOnDisk (poolName : String)
deriving DecidableEq, Repr

/-- Behaviour of the external collaborators of the pool resolver: the catalog
pool lookups, the driver loader, and the backend's on-disk creation
routine. -/
structure StorageEnv where
  storagePoolGet : String → Except String (Int × StoragePool)
  containerPool : String → String → Except String String
  driversLoad : String → String → List (String × String) → Except String Unit
  poolCreate : StoragePool → Option String

/-- Source `CreatePool` creates a new storage pool on disk and returns a Pool
interface.  The global `MockBackend` switch is the `mockBackend` argument;
the caller-supplied descriptor is `none` for a Go nil pointer, and the
descriptor's state after the call (Go mutates it through the pointer) is
returned as the third component. -/
def CreatePool (env : StorageEnv) (mockBackend : Bool) (poolID : Int)
    (dbPool : Option StoragePool) :
    Except String Pool × List PoolEv × Option StoragePool :=
  match dbPool with
  | none => (.error ErrNilValue, [], none)
  | some p0 =>
    let p := if p0.config = none then { p0 with config := some [] } else p0
    if mockBackend then
      (.ok (Pool.mockBackend p.name), [], some p)
    else
      match env.driversLoad p.driver p.name (p.config.getD []) with
      | .error e => (.error e, [PoolEv.driverLoad p.driver p.name], some p)
      | .ok _ =>
        match env.poolCreate p with
        | some e =>
          (.error e,
            [PoolEv.driverLoad p.driver p.name, PoolEv.poolCreateOnDisk p.name], some p)
        | none =>
          (.ok (Pool.lxdBackend poolID p.name),
            [PoolEv.driverLoad p.driver p.name, PoolEv.poolCreateOnDisk p.name], some p)

/-- Source `GetPoolByName` retrieves the pool from the database by its name and
returns a Pool interface (or the mock backend when the global switch is
on). -/
def GetPoolByName (env : StorageEnv) (mockBackend : Bool) (name : String) :
    Except String Pool × List PoolEv :=
  if mockBackend then
    (.ok (Pool.mockBackend name), [])
  else
    match env.storagePoolGet name with
    | .error e => (.error e, [PoolEv.catalogPoolGet name])
    | .ok (poolID, dbPool0) =>
      let dbPool :=
        if dbPool0.config = none then { dbPool0 with config := some [] } else dbPool0
      match env.driversLoad dbPool.driver dbPool.name (dbPool.config.getD []) with
      | .error e =>
        (.error e, [PoolEv.catalogPoolGet name, PoolEv.driverLoad dbPool.driver dbPool.name])
      | .ok _ =>
        (.ok (Pool.lxdBackend poolID dbPool.name),
          [PoolEv.catalogPoolGet name, PoolEv.driverLoad dbPool.driver dbPool.name])

/-- Source `GetPoolByInstanceName` retrieves the pool from the database using the
instance's project and name: it looks up the instance's pool name in the
catalog, then delegates to `GetPoolByName`. -/
def GetPoolByInstanceName (env : StorageEnv) (mockBackend : Bool)
    (projectName instanceName : String) :
    Except String Pool × List PoolEv :=
  match env.containerPool projectName instanceName with
  | .error e => (.error e, [PoolEv.catalogContainerPool projectName instanceName])
  | .ok poolName =>
    let r := GetPoolByName env mockBackend poolName
    (r.1, PoolEv.catalogContainerPool projectName instanceName :: r.2)

theorem stringMk_data (s : String) : String.mk s.data = s := rfl

theorem splitFirst_eq_none (sep : Char) (l : List Char) (h : sep ∉ l) :
    splitFirst sep l = none := by
  induction l with
  | nil => rfl
  | cons c rest ih =>
    have hc : ¬ c = sep := fun hc => h (List.mem_cons.mpr (Or.inl hc.symm))
    have hrest : sep ∉ rest := fun hm => h (List.mem_cons_of_mem c hm)
    simp [splitFirst, hc, ih hrest]

theorem splitFirst_append (sep : Char) (l₁ l₂ : List Char) (h : sep ∉ l₁) :
    splitFirst sep (l₁ ++ sep :: l₂) = some (l₁, l₂) := by
  induction l₁ with
  | nil => simp [splitFirst]
  | cons c rest ih =>
    have hc : ¬ c = sep := fun hc => h (List.mem_cons.mpr (Or.inl hc.symm))
    have hrest : sep ∉ rest := fun hm => h (List.mem_cons_of_mem c hm)
    simp [splitFirst, hc, ih hrest]

theorem splitFirst_isSome_of_mem (sep : Char) (l : List Char) (h : sep ∈ l) :
    (splitFirst sep l).isSome = true := by
  induction l with
  | nil => cases h
  | cons c rest ih =>
    by_cases hc : c = sep
    · simp [splitFirst, hc]
    · have hmem : sep ∈ rest := by
        rcases List.mem_cons.mp h with h1 | h1
        · exact absurd h1.symm hc
        · exact h1
      have hsome := ih hmem
      rcases hsf : splitFirst sep rest with _ | pr
      · rw [hsf] at hsome; simp at hsome
      · simp [splitFirst, hc, hsf]

theorem data_append_char (p n : String) (c : Char) (cs : String) (hcs : cs.data = [c]) :
    (p ++ cs ++ n).data = p.data ++ c :: n.data := by
  simp [String.data_append, hcs]

theorem sharedIsSnapshot_snapName (parentName snapshotName : String) :
    sharedIsSnapshot (GetSnapshotVolumeName parentName snapshotName) = true := by
  have hd : (parentName ++ "/" ++ snapshotName).data
      = parentName.data ++ '/' :: snapshotName.data := data_append_char _ _ _ _ rfl
  have hmem : '/' ∈ (parentName ++ "/" ++ snapshotName).data := by
    rw [hd]
    exact List.mem_append_right _ (List.mem_cons_self _ _)
  exact splitFirst_isSome_of_mem _ _ hmem

theorem splitN2Underscore_split (p n : String) (hp : '_' ∉ p.data) :
    splitN2Underscore (p ++ "_" ++ n) = [p, n] := by
  have hd : (p ++ "_" ++ n).data = p.data ++ '_' :: n.data := data_append_char _ _ _ _ rfl
  simp [splitN2Underscore, hd, splitFirst_append _ _ _ hp, stringMk_data]

theorem splitN2Underscore_noUnderscore (s : String) (h : '_' ∉ s.data) :
    splitN2Underscore s = [s] := by
  simp [splitN2Underscore, splitFirst_eq_none _ _ h]

/-- The driver mount event `MountTask` records for this volume (snapshot or
plain variant, matching `mountCallResult`). -/
def mountEv (v : Volume) : Ev :=
  match containerGetParentAndSnapshotName v.name with
  | (parentName, snapName, true) => Ev.mountVolumeSnapshotCall v.volType parentName snapName
  | (_, _, false) => Ev.mountVolumeCall v.volType v.name

/-- The driver unmount event `MountTask` records for this volume when it
compensates (snapshot or plain variant). -/
def unmountEv (v : Volume) : Ev :=
  match containerGetParentAndSnapshotName v.name with
  | (parentName, snapName, true) => Ev.unmountVolumeSnapshotCall v.volType parentName snapName
  | (_, _, false) => Ev.unmountVolumeCall v.volType v.name

theorem isUnmount_mountEv (v : Volume) : Ev.isUnmount (mountEv v) = false := by
  rcases h : containerGetParentAndSnapshotName v.name with ⟨p, s, b⟩
  cases b <;> simp [mountEv, h, Ev.isUnmount]

theorem isUnmount_unmountEv (v : Volume) : Ev.isUnmount (unmountEv v) = true := by
  rcases h : containerGetParentAndSnapshotName v.name with ⟨p, s, b⟩
  cases b <;> simp [unmountEv, h, Ev.isUnmount]

theorem isUnmount_lockAcquire (id : String) : Ev.isUnmount (Ev.lockAcquire id) = false := rfl

theorem isUnmount_lockRelease (id : String) : Ev.isUnmount (Ev.lockRelease id) = false := rfl

theorem isUnmount_taskCall (p : String) : Ev.isUnmount (Ev.taskCall p) = false := rfl

theorem mountEv_ne_taskCall (v : Volume) (p : String) : mountEv v ≠ Ev.taskCall p := by
  rcases h : containerGetParentAndSnapshotName v.name with ⟨pn, s, b⟩
  cases b <;> simp [mountEv, h]

theorem mountEv_ne_lockAcquire (v : Volume) (id : String) : mountEv v ≠ Ev.lockAcquire id := by
  rcases h : containerGetParentAndSnapshotName v.name with ⟨pn, s, b⟩
  cases b <;> simp [mountEv, h]

theorem unmountEv_ne_lockAcquire (v : Volume) (id : String) : unmountEv v ≠ Ev.lockAcquire id := by
  rcases h : containerGetParentAndSnapshotName v.name with ⟨pn, s, b⟩
  cases b <;> simp [unmountEv, h]

/-- Trace/result characterization of `MountTask` in terms of the driver mount
call result: a failed mount yields the mount critical section alone and the
mount error; a successful mount yields the mount critical section, the task
call, and — exactly when the driver reported `ourMount` — the unmount
critical section, with the task's error as the return value. -/
theorem mountTask_eq (v : Volume) (task : String → Option String) :
    v.MountTask task =
      match mountCallResult v with
      | .error e =>
        (some e, [Ev.lockAcquire (mountLockID v), mountEv v, Ev.lockRelease (mountLockID v)])
      | .ok ourMount =>
        (task v.MountPath,
          [Ev.lockAcquire (mountLockID v), mountEv v, Ev.lockRelease (mountLockID v),
           Ev.taskCall v.MountPath] ++
          (if ourMount then
            [Ev.lockAcquire (umountLockID v), unmountEv v, Ev.lockRelease (umountLockID v)]
          else [])) := by
  rcases h : containerGetParentAndSnapshotName v.name with ⟨p, s, b⟩
  cases b
  · cases hm : v.driver.mountVolume v.volType v.name with
    | error e => simp [Volume.MountTask, mountCallResult, mountEv, unmountEv, h, hm]
    | ok om => simp [Volume.MountTask, mountCallResult, mountEv, unmountEv, h, hm]
  · cases hm : v.driver.mountVolumeSnapshot v.volType p s with
    | error e => simp [Volume.MountTask, mountCallResult, mountEv, unmountEv, h, hm]
    | ok om => simp [Volume.MountTask, mountCallResult, mountEv, unmountEv, h, hm]

/-- Fixture driver whose mount calls report a performed physical mount and
whose other calls succeed. -/
def driverOkTrue : Driver :=
  { mountVolume := fun _ _ => .ok true
    unmountVolume := fun _ _ => .ok true
    mountVolumeSnapshot := fun _ _ _ => .ok true
    unmountVolumeSnapshot := fun _ _ _ => .ok true
    volumeSnapshots := fun _ _ => .ok ["snap0", "snap1"] }

/-- Fixture driver whose unmount calls fail while the mount calls report a
performed physical mount. -/
def driverUnmountFails : Driver :=
  { mountVolume := fun _ _ => .ok true
    unmountVolume := fun _ _ => .error "unmount failed"
    mountVolumeSnapshot := fun _ _ _ => .ok true
    unmountVolumeSnapshot := fun _ _ _ => .error "unmount failed"
    volumeSnapshots := fun _ _ => .ok [] }

/-- Fixture driver whose mount calls fail. -/
def driverMountFails : Driver :=
  { mountVolume := fun _ _ => .error "mount failed"
    unmountVolume := fun _ _ => .ok true
    mountVolumeSnapshot := fun _ _ _ => .error "mount failed"
    unmountVolumeSnapshot := fun _ _ _ => .ok true
    volumeSnapshots := fun _ _ => .ok [] }

/-- Fixture non-snapshot container volume over `driverOkTrue`. -/
def volFix : Volume := NewVolume driverOkTrue "pool1" VolumeTypeContainer ContentTypeFS "vol1" []

/-- Fixture snapshot volume over `driverOkTrue`. -/
def volSnapFix : Volume :=
  NewVolume driverOkTrue "pool1" VolumeTypeContainer ContentTypeFS "vol1/snap0" []

/-- Fixture volume over the driver whose unmount fails. -/
def volUnmountFailsFix : Volume :=
  NewVolume driverUnmountFails "pool1" VolumeTypeContainer ContentTypeFS "vol1" []

/-- Fixture volume over the driver whose mount fails. -/
def volMountFailsFix : Volume :=
  NewVolume driverMountFails "pool1" VolumeTypeContainer ContentTypeFS "vol1" []

/-- Fixture task that succeeds. -/
def taskOkFix : String → Option String := fun _ => none

/-- Fixture task that fails. -/
def taskFailFix : String → Option String := fun _ => some "task failed"

/-- C1: `MountTask` records and runs the compensating unmount exactly when
the driver mount call returned `performedPhysicalMount = true`, and then the
unmount events come strictly after the task event while the task's error is
still the returned value, for every task (so also on the task-error exit
path). -/
theorem mountTask_compensates_iff (v : Volume) (task : String → Option String) :
    ((v.MountTask task).2.any Ev.isUnmount = true ↔ mountCallResult v = Except.ok true)
    ∧ (mountCallResult v = Except.ok true →
      ∃ evs₁ evs₂, (v.MountTask task).2 = evs₁ ++ Ev.taskCall v.MountPath :: evs₂
        ∧ evs₂.any Ev.isUnmount = true
        ∧ evs₁.any Ev.isUnmount = false
        ∧ (v.MountTask task).1 = task v.MountPath) := by
  rw [mountTask_eq]
  cases hm : mountCallResult v with
  | error e => simp [isUnmount_mountEv, isUnmount_lockAcquire, isUnmount_lockRelease, isUnmount_taskCall]
  | ok om =>
    cases om
    · simp [isUnmount_mountEv, isUnmount_lockAcquire, isUnmount_lockRelease, isUnmount_taskCall]
    · refine ⟨by simp [isUnmount_unmountEv, isUnmount_mountEv, isUnmount_lockAcquire, isUnmount_lockRelease, isUnmount_taskCall], fun _ => ?_⟩
      refine ⟨[Ev.lockAcquire (mountLockID v), mountEv v, Ev.lockRelease (mountLockID v)],
        [Ev.lockAcquire (umountLockID v), unmountEv v, Ev.lockRelease (umountLockID v)],
        by simp, ?_, ?_, rfl⟩
      · simp [isUnmount_unmountEv, isUnmount_mountEv, isUnmount_lockAcquire, isUnmount_lockRelease, isUnmount_taskCall]
      · simp [isUnmount_mountEv, isUnmount_lockAcquire, isUnmount_lockRelease, isUnmount_taskCall]

/-- C1 witness: on the fixture volume whose driver reports a performed mount,
with a failing task, the trace contains an unmount and the theorem's
conclusion is realized concretely. -/
theorem mountTask_compensates_iff_witness :
    mountCallResult volFix = Except.ok true
    ∧ (∃ evs₁ evs₂,
        (volFix.MountTask taskFailFix).2 = evs₁ ++ Ev.taskCall volFix.MountPath :: evs₂
        ∧ evs₂.any Ev.isUnmount = true
        ∧ evs₁.any Ev.isUnmount = false
        ∧ (volFix.MountTask taskFailFix).1 = taskFailFix volFix.MountPath) :=
  ⟨rfl, (mountTask_compensates_iff volFix taskFailFix).2 rfl⟩

/-- C4: when the driver mount (or mount-snapshot) call fails, `MountTask`
returns that error, records no task invocation, and records no compensating
unmount. -/
theorem mountTask_mount_error (v : Volume) (task : String → Option String) (e : String)
    (h : mountCallResult v = Except.error e) :
    (v.MountTask task).1 = some e
    ∧ (∀ p, Ev.taskCall p ∉ (v.MountTask task).2)
    ∧ (v.MountTask task).2.any Ev.isUnmount = false := by
  rw [mountTask_eq, h]
  refine ⟨rfl, ?_, by simp [isUnmount_mountEv, isUnmount_lockAcquire, isUnmount_lockRelease, isUnmount_taskCall]⟩
  intro p
  simp [List.mem_cons]
  exact fun hcontra => (mountEv_ne_taskCall v p) hcontra.symm

/-- C4 witness: the fixture volume with a failing driver mount realizes the
theorem at a concrete input. -/
theorem mountTask_mount_error_witness :
    (volMountFailsFix.MountTask taskOkFix).1 = some "mount failed"
    ∧ (∀ p, Ev.taskCall p ∉ (volMountFailsFix.MountTask taskOkFix).2)
    ∧ (volMountFailsFix.MountTask taskOkFix).2.any Ev.isUnmount = false :=
  mountTask_mount_error volMountFailsFix taskOkFix "mount failed" rfl

theorem lockAcquire_mount_mem (v : Volume) (task : String → Option String) :
    Ev.lockAcquire (mountLockID v) ∈ (v.MountTask task).2 := by
  rcases h : containerGetParentAndSnapshotName v.name with ⟨p, s, b⟩
  cases b
  · cases hm : v.driver.mountVolume v.volType v.name with
    | error e => simp [Volume.MountTask, h, hm]
    | ok om => simp [Volume.MountTask, h, hm]
  · cases hm : v.driver.mountVolumeSnapshot v.volType p s with
    | error e => simp [Volume.MountTask, h, hm]
    | ok om => simp [Volume.MountTask, h, hm]

theorem lockAcquire_mem_ids (v : Volume) (task : String → Option String) (id : String) :
    Ev.lockAcquire id ∈ (v.MountTask task).2 → id = mountLockID v ∨ id = umountLockID v := by
  rcases h : containerGetParentAndSnapshotName v.name with ⟨p, s, b⟩
  cases b
  · cases hm : v.driver.mountVolume v.volType v.name with
    | error e =>
      intro hmem
      simp [Volume.MountTask, h, hm, List.mem_cons] at hmem
      tauto
    | ok om =>
      intro hmem
      cases om <;> simp [Volume.MountTask, h, hm, List.mem_cons] at hmem <;> tauto
  · cases hm : v.driver.mountVolumeSnapshot v.volType p s with
    | error e =>
      intro hmem
      simp [Volume.MountTask, h, hm, List.mem_cons] at hmem
      tauto
    | ok om =>
      intro hmem
      cases om <;> simp [Volume.MountTask, h, hm, List.mem_cons] at hmem <;> tauto

/-- C2 counterexample: on a concrete volume the mount-decision and
unmount-decision critical sections of `MountTask` use two different lock
identifiers (`mount/containers/vol1` vs `umount/containers/vol1`), both of
which occur in one run's trace — they are not guarded by the same lock
identifier. -/
theorem mountTask_lock_ids_differ_cex :
    mountLockID volFix = "mount/containers/vol1"
    ∧ umountLockID volFix = "umount/containers/vol1"
    ∧ mountLockID volFix ≠ umountLockID volFix
    ∧ Ev.lockAcquire (mountLockID volFix) ∈ (volFix.MountTask taskOkFix).2
    ∧ Ev.lockAcquire (umountLockID volFix) ∈ (volFix.MountTask taskOkFix).2 := by
  refine ⟨rfl, rfl, by decide, by decide, by decide⟩

theorem mountLockID_ne_umountLockID (v w : Volume) : mountLockID v ≠ umountLockID w := by
  intro h
  have hd : (mountLockID v).data = (umountLockID w).data := congrArg String.data h
  rw [mountLockID, umountLockID] at hd
  simp only [String.data_append] at hd
  simp only [List.append_assoc, List.cons_append, List.nil_append, List.cons.injEq] at hd
  exact absurd hd.1 (by decide)

/-- C2 amended: the mount-decision and unmount-decision critical sections are
guarded by two distinct per-volume lock identifiers — any two volumes with
the same (type, name) share each identifier, so each kind of critical section
is mutually exclusive against itself; but the mount identifier never equals
any unmount identifier, and a `MountTask` run acquires only these two
identifiers. -/
theorem mountTask_lock_discipline (v w : Volume) (task : String → Option String) :
    (v.volType = w.volType → v.name = w.name →
      mountLockID v = mountLockID w ∧ umountLockID v = umountLockID w)
    ∧ mountLockID v ≠ umountLockID w
    ∧ Ev.lockAcquire (mountLockID v) ∈ (v.MountTask task).2
    ∧ (∀ id, Ev.lockAcquire id ∈ (v.MountTask task).2 →
        id = mountLockID v ∨ id = umountLockID v) := by
  refine ⟨?_, mountLockID_ne_umountLockID v w, lockAcquire_mount_mem v task,
    lockAcquire_mem_ids v task⟩
  intro ht hn
  constructor <;> simp [mountLockID, umountLockID, ht, hn]

/-- C2 amended witness: the lock discipline realized on two concrete volumes
with equal (type, name) and a concrete run. -/
theorem mountTask_lock_discipline_witness :
    (mountLockID volFix = mountLockID volUnmountFailsFix
      ∧ umountLockID volFix = umountLockID volUnmountFailsFix)
    ∧ mountLockID volFix ≠ umountLockID volUnmountFailsFix
    ∧ Ev.lockAcquire (mountLockID volFix) ∈ (volFix.MountTask taskOkFix).2 := by
  have h := mountTask_lock_discipline volFix volUnmountFailsFix taskOkFix
  exact ⟨h.1 rfl rfl, h.2.1, h.2.2.1⟩

/-- C3 counterexample: on a concrete volume whose driver unmount fails, the
compensating unmount runs (it is in the trace and its driver result is an
error) yet `MountTask` returns `none` — the unmount error is discarded, not
surfaced to the caller. -/
theorem mountTask_unmount_error_discarded_cex :
    volUnmountFailsFix.driver.unmountVolume volUnmountFailsFix.volType
      volUnmountFailsFix.name = Except.error "unmount failed"
    ∧ (volUnmountFailsFix.MountTask taskOkFix).1 = none
    ∧ (volUnmountFailsFix.MountTask taskOkFix).2.any Ev.isUnmount = true := by
  refine ⟨rfl, rfl, by decide⟩

/-- C3 amended: when the driver mount reported a performed mount, `MountTask`
returns exactly the task's error and still runs the compensating unmount; the
unmount call's own error is discarded by the deferred action and never
surfaced to the caller. -/
theorem mountTask_task_error_priority (v : Volume) (task : String → Option String)
    (h : mountCallResult v = Except.ok true) :
    (v.MountTask task).1 = task v.MountPath
    ∧ (v.MountTask task).2.any Ev.isUnmount = true := by
  rw [mountTask_eq, h]
  exact ⟨rfl, by simp [isUnmount_unmountEv, isUnmount_mountEv, isUnmount_lockAcquire,
    isUnmount_lockRelease, isUnmount_taskCall]⟩

/-- C3 amended witness: realized on the concrete volume whose driver unmount
fails, with a failing task — the task's error is the return value. -/
theorem mountTask_task_error_priority_witness :
    (volUnmountFailsFix.MountTask taskFailFix).1 = some "task failed"
    ∧ (volUnmountFailsFix.MountTask taskFailFix).2.any Ev.isUnmount = true := by
  have h := mountTask_task_error_priority volUnmountFailsFix taskFailFix rfl
  exact ⟨h.1.trans rfl, h.2⟩

/-- C8: on a volume that is already a snapshot, `NewSnapshot` always fails
with the snapshot-of-snapshot error, and `Snapshots` always fails with the
volume-is-a-snapshot error without performing any driver call. -/
theorem snapshot_of_snapshot_fails (v : Volume) (h : v.IsSnapshot = true)
    (snapshotName : String) :
    v.NewSnapshot snapshotName = Except.error "Cannot create a snapshot volume from a snapshot"
    ∧ (v.Snapshots).1 = Except.error "Volume is a snapshot"
    ∧ (v.Snapshots).2 = [] := by
  refine ⟨?_, ?_, ?_⟩ <;> simp [Volume.NewSnapshot, Volume.Snapshots, h]

/-- C8 witness: realized on a concrete snapshot volume. -/
theorem snapshot_of_snapshot_fails_witness :
    volSnapFix.IsSnapshot = true
    ∧ volSnapFix.NewSnapshot "s2"
        = Except.error "Cannot create a snapshot volume from a snapshot"
    ∧ (volSnapFix.Snapshots).1 = Except.error "Volume is a snapshot"
    ∧ (volSnapFix.Snapshots).2 = [] := by
  have h := snapshot_of_snapshot_fails volSnapFix rfl "s2"
  exact ⟨rfl, h.1, h.2.1, h.2.2⟩

/-- C9: on a non-snapshot volume, `NewSnapshot` succeeds with a volume whose
name is the parent name joined with the suffix by the fixed snapshot-name
convention and whose pool, type, content type, config and driver equal the
parent's; `IsSnapshot` on the result is true. -/
theorem newSnapshot_of_parent (v : Volume) (h : v.IsSnapshot = false)
    (snapshotName : String) :
    ∃ nv, v.NewSnapshot snapshotName = Except.ok nv
      ∧ nv.name = GetSnapshotVolumeName v.name snapshotName
      ∧ nv.name = v.name ++ "/" ++ snapshotName
      ∧ nv.pool = v.pool ∧ nv.volType = v.volType ∧ nv.contentType = v.contentType
      ∧ nv.config = v.config ∧ nv.driver = v.driver
      ∧ nv.IsSnapshot = true := by
  refine ⟨NewVolume v.driver v.pool v.volType v.contentType
    (GetSnapshotVolumeName v.name snapshotName) v.config,
    ?_, rfl, rfl, rfl, rfl, rfl, rfl, rfl, ?_⟩
  · simp [Volume.NewSnapshot, h]
  · exact sharedIsSnapshot_snapName v.name snapshotName

/-- C9 witness: realized on a concrete non-snapshot volume. -/
theorem newSnapshot_of_parent_witness :
    volFix.IsSnapshot = false
    ∧ ∃ nv, volFix.NewSnapshot "snap0" = Except.ok nv
      ∧ nv.name = GetSnapshotVolumeName volFix.name "snap0"
      ∧ nv.name = volFix.name ++ "/" ++ "snap0"
      ∧ nv.pool = volFix.pool ∧ nv.volType = volFix.volType
      ∧ nv.contentType = volFix.contentType
      ∧ nv.config = volFix.config ∧ nv.driver = volFix.driver
      ∧ nv.IsSnapshot = true :=
  ⟨rfl, newSnapshot_of_parent volFix rfl "snap0"⟩

/-- C7: `CreateMountPath` always performs exactly one directory-tree creation,
with mode 0711, at the volume's mount path; it performs the leaf chmod (and
only to mode 0100, only on the mount path) exactly when the creation
succeeded and the volume type is neither custom nor image; and it returns no
error exactly when creation succeeded and either no chmod applies or the
chmod succeeded. -/
theorem createMountPath_modes (v : Volume) (os : OsBehavior) :
    FsEv.mkdirAll v.MountPath 0o711 ∈ (v.CreateMountPath os).2
    ∧ (∀ p m, FsEv.mkdirAll p m ∈ (v.CreateMountPath os).2 → p = v.MountPath ∧ m = 0o711)
    ∧ ((FsEv.chmod v.MountPath 0o100 ∈ (v.CreateMountPath os).2) ↔
        (os.mkdirAll v.MountPath 0o711 = none
          ∧ v.volType ≠ VolumeTypeCustom ∧ v.volType ≠ VolumeTypeImage))
    ∧ (∀ p m, FsEv.chmod p m ∈ (v.CreateMountPath os).2 → p = v.MountPath ∧ m = 0o100)
    ∧ ((v.CreateMountPath os).1 = none ↔
        (os.mkdirAll v.MountPath 0o711 = none
          ∧ (v.volType = VolumeTypeCustom ∨ v.volType = VolumeTypeImage
            ∨ os.chmod v.MountPath 0o100 = none))) := by
  cases hmk : os.mkdirAll v.MountPath 0o711 with
  | some e =>
    refine ⟨?_, ?_, ?_, ?_, ?_⟩ <;>
      simp [Volume.CreateMountPath, hmk]
  | none =>
    by_cases hty : v.volType ≠ VolumeTypeCustom ∧ v.volType ≠ VolumeTypeImage
    · cases hch : os.chmod v.MountPath 0o100 with
      | some e =>
        refine ⟨?_, ?_, ?_, ?_, ?_⟩ <;>
          simp [Volume.CreateMountPath, hmk, hty, hch]
      | none =>
        refine ⟨?_, ?_, ?_, ?_, ?_⟩ <;>
          simp [Volume.CreateMountPath, hmk, hty, hch]
    · refine ⟨?_, ?_, ?_, ?_, ?_⟩ <;>
        simp [Volume.CreateMountPath, hmk, hty] <;>
        tauto

/-- Fixture OS behaviour where every filesystem call succeeds. -/
def osOkFix : OsBehavior := { mkdirAll := fun _ _ => none, chmod := fun _ _ => none }

/-- C7 witness: on a concrete container volume with a succeeding OS, the leaf
chmod to 0100 happens and no error is returned. -/
theorem createMountPath_modes_witness :
    FsEv.chmod volFix.MountPath 0o100 ∈ (volFix.CreateMountPath osOkFix).2
    ∧ (volFix.CreateMountPath osOkFix).1 = none :=
  ⟨(createMountPath_modes volFix osOkFix).2.2.1.mpr ⟨rfl, by decide, by decide⟩,
   (createMountPath_modes volFix osOkFix).2.2.2.2.mpr ⟨rfl, Or.inr (Or.inr rfl)⟩⟩

/-- Fixture resolver environment whose catalog lookups fail and whose driver
load and on-disk creation would be observable failures if reached. -/
def envFailFix : StorageEnv :=
  { storagePoolGet := fun _ => .error "No such pool"
    containerPool := fun _ _ => .error "No such instance"
    driversLoad := fun _ _ _ => .error "driver load attempted"
    poolCreate := fun _ => some "disk creation attempted" }

/-- Fixture pool descriptor with a present (empty) config. -/
def dbPoolFix : StoragePool := { name := "pool1", driver := "zfs", config := some [] }

/-- Fixture pool descriptor with an absent (nil) config. -/
def dbPoolNilConfigFix : StoragePool := { name := "pool1", driver := "zfs", config := none }

/-- C5 counterexample: with the mock switch enabled, `GetPoolByInstanceName`
on a concrete input still performs a catalog lookup (the instance-to-pool
query) and, when that lookup fails, returns its error instead of an in-memory
substitute Pool — it does not short-circuit. -/
theorem mock_getPoolByInstanceName_cex :
    GetPoolByInstanceName envFailFix true "default" "inst1"
      = (Except.error "No such instance",
         [PoolEv.catalogContainerPool "default" "inst1"])
    ∧ (GetPoolByInstanceName envFailFix true "default" "inst1").2 ≠ [] :=
  ⟨rfl, by decide⟩

/-- C5 amended: with the mock switch enabled, `CreatePool` (on a non-null
descriptor) and `GetPoolByName` return the in-memory mock Pool with an empty
effect trace (no driver load, no catalog lookup, no disk I/O);
`GetPoolByInstanceName` always performs exactly the instance-to-pool catalog
lookup first — when it succeeds the mock Pool is returned with no further
effects, and when it fails its error is propagated. -/
theorem mock_short_circuit (env : StorageEnv) (poolID : Int) (p : StoragePool)
    (name projectName instanceName : String) :
    (CreatePool env true poolID (some p)).1 = Except.ok (Pool.mockBackend p.name)
    ∧ (CreatePool env true poolID (some p)).2.1 = []
    ∧ GetPoolByName env true name = (Except.ok (Pool.mockBackend name), [])
    ∧ (∀ poolName, env.containerPool projectName instanceName = Except.ok poolName →
        GetPoolByInstanceName env true projectName instanceName
          = (Except.ok (Pool.mockBackend poolName),
             [PoolEv.catalogContainerPool projectName instanceName]))
    ∧ (∀ e, env.containerPool projectName instanceName = Except.error e →
        GetPoolByInstanceName env true projectName instanceName
          = (Except.error e, [PoolEv.catalogContainerPool projectName instanceName])) := by
  refine ⟨?_, ?_, ?_, ?_, ?_⟩
  · cases hp : p.config <;> simp [CreatePool, hp]
  · cases hp : p.config <;> simp [CreatePool, hp]
  · simp [GetPoolByName]
  · intro poolName h
    simp [GetPoolByInstanceName, h, GetPoolByName]
  · intro e h
    simp [GetPoolByInstanceName, h]

/-- C5 amended witness: realized on a concrete environment whose
instance-to-pool lookup fails, with concrete names. -/
theorem mock_short_circuit_witness :
    (CreatePool envFailFix true 1 (some dbPoolFix)).1 = Except.ok (Pool.mockBackend "pool1")
    ∧ (CreatePool envFailFix true 1 (some dbPoolFix)).2.1 = []
    ∧ GetPoolByName envFailFix true "pool1" = (Except.ok (Pool.mockBackend "pool1"), [])
    ∧ GetPoolByInstanceName envFailFix true "default" "inst1"
        = (Except.error "No such instance",
           [PoolEv.catalogContainerPool "default" "inst1"]) := by
  have h := mock_short_circuit envFailFix 1 dbPoolFix "pool1" "default" "inst1"
  exact ⟨h.1, h.2.1, h.2.2.1, h.2.2.2.2 "No such instance" rfl⟩

/-- C10: `CreatePool` on a non-null descriptor whose config is absent leaves
the descriptor, after the call, equal to the same descriptor with the config
replaced by an empty mapping (every other field unchanged) — for every
environment and every state of the mock switch, hence also in mock mode and
on every failure path. -/
theorem createPool_defaults_config (env : StorageEnv) (mockBackend : Bool) (poolID : Int)
    (p : StoragePool) (h : p.config = none) :
    (CreatePool env mockBackend poolID (some p)).2.2 = some { p with config := some [] } := by
  cases mockBackend with
  | true => simp [CreatePool, h]
  | false =>
    cases hl : env.driversLoad p.driver p.name [] with
    | error e => simp [CreatePool, h, hl]
    | ok u =>
      cases hc : env.poolCreate { p with config := some [] } with
      | some e => simp [CreatePool, h, hl, hc]
      | none => simp [CreatePool, h, hl, hc]

/-- C10 witness: realized on the concrete nil-config descriptor in mock
mode. -/
theorem createPool_defaults_config_witness :
    (CreatePool envFailFix true 1 (some dbPoolNilConfigFix)).2.2
      = some { dbPoolNilConfigFix with config := some [] } :=
  createPool_defaults_config envFailFix true 1 dbPoolNilConfigFix rfl

theorem volIDProjectName_split (volType : VolumeType) (p n : String)
    (hvt : volType = VolumeTypeContainer ∨ volType = VolumeTypeVM)
    (hp : '_' ∉ p.data) :
    volIDProjectName volType (p ++ "_" ++ n) = (p, n) := by
  unfold volIDProjectName
  rw [if_pos hvt, splitN2Underscore_split p n hp]

theorem volIDProjectName_noUnderscore (volType : VolumeType) (volName : String)
    (h : '_' ∉ volName.data) :
    volIDProjectName volType volName = ("default", volName) := by
  unfold volIDProjectName
  by_cases hvt : volType = VolumeTypeContainer ∨ volType = VolumeTypeVM
  · rw [if_pos hvt, splitN2Underscore_noUnderscore volName h]
  · rw [if_neg hvt]

theorem volIDProjectName_other (volType : VolumeType) (volName : String)
    (h : ¬(volType = VolumeTypeContainer ∨ volType = VolumeTypeVM)) :
    volIDProjectName volType volName = ("default", volName) := by
  unfold volIDProjectName
  rw [if_neg h]

theorem volIDFuncMake_args (cluster : VolCatalog) (poolID : Int) (volType : VolumeType)
    (volName : String) (a : LookupArgs)
    (h : (volIDFuncMake cluster poolID volType volName).2 = some a) :
    a.project = (volIDProjectName volType volName).1
    ∧ a.volName = (volIDProjectName volType volName).2 := by
  unfold volIDFuncMake at h
  cases hdb : VolumeTypeToDBType volType with
  | error e => simp [hdb] at h
  | ok tid =>
    simp only [hdb] at h
    cases hcat : cluster.storagePoolNodeVolumeGetTypeByProject
        (volIDProjectName volType volName).1 (volIDProjectName volType volName).2
        tid poolID with
    | error de =>
      cases de <;>
        (simp only [hcat, Option.some.injEq] at h; subst h; exact ⟨rfl, rfl⟩)
    | ok vid =>
      simp only [hcat, Option.some.injEq] at h
      subst h
      exact ⟨rfl, rfl⟩

/-- C6: whenever the ID-resolution callback produced by `volIDFuncMake`
performs a catalog lookup, the project and name it looks up obey the split
convention — for container/virtual-machine types the name is split at the
first underscore into `(project, name)`, with project defaulting to
`default` when no underscore is present; for all other types no splitting
occurs and the project is always `default`, regardless of underscores. -/
theorem volIDFunc_project_split (cluster : VolCatalog) (poolID : Int)
    (volType : VolumeType) (volName : String) (a : LookupArgs)
    (h : (volIDFuncMake cluster poolID volType volName).2 = some a) :
    ((volType = VolumeTypeContainer ∨ volType = VolumeTypeVM) →
      (∀ p n, volName = p ++ "_" ++ n → '_' ∉ p.data → a.project = p ∧ a.volName = n)
      ∧ ('_' ∉ volName.data → a.project = "default" ∧ a.volName = volName))
    ∧ ((volType ≠ VolumeTypeContainer ∧ volType ≠ VolumeTypeVM) →
      a.project = "default" ∧ a.volName = volName) := by
  have hargs := volIDFuncMake_args cluster poolID volType volName a h
  constructor
  · intro hvt
    constructor
    · intro p n hname hp
      rw [hname] at hargs
      rw [volIDProjectName_split volType p n hvt hp] at hargs
      exact hargs
    · intro hu
      rw [volIDProjectName_noUnderscore volType volName hu] at hargs
      exact hargs
  · intro hvt
    rw [volIDProjectName_other volType volName (by tauto)] at hargs
    exact hargs

/-- Fixture catalog whose volume lookup succeeds with a fixed ID. -/
def clusterFix : VolCatalog :=
  { storagePoolNodeVolumeGetTypeByProject := fun _ _ _ _ => .ok 7 }

/-- Fixture lookup arguments produced for volume name `proj1_myvol` of
container type on pool 5. -/
def argsFix : LookupArgs :=
  { project := "proj1", volName := "myvol", volTypeID := 0, poolID := 5 }

/-- C6 witness: for container volume name `proj1_myvol` the callback looks up
project `proj1` and name `myvol`. -/
theorem volIDFunc_project_split_witness :
    argsFix.project = "proj1" ∧ argsFix.volName = "myvol" :=
  ((volIDFunc_project_split clusterFix 5 VolumeTypeContainer "proj1_myvol" argsFix
      (by decide)).1 (Or.inl rfl)).1 "proj1" "myvol" (by decide) (by decide)
